import Mathlib

/-!
Verification of the record reconciliation / de-duplication core of the
misiddons-streamlit book-cataloguing app (src/streamlit_app.py), shallowly
embedded in Lean.  Strings are modelled as Lean String / List Char; the
embedding is exact on the ASCII fragment (plus the explicitly listed
non-ASCII characters) that the claims exercise.  External I/O (Google Books,
Open Library, the Google-Sheets worksheet) is abstracted: provider responses
and the worksheet's row list are passed as arguments.
-/

namespace Misiddons

/-! ### Python string primitives -/

/-- The apostrophe character (U+0027), written via its code point. -/
def apostropheChar : Char := Char.ofNat 39

/-- The backslash character (U+005C), written via its code point. -/
def backslashChar : Char := Char.ofNat 92

/-- Characters removed by Python str.strip() with no argument
(ASCII whitespace; the inputs handled here are ASCII). -/
def pyIsSpace (c : Char) : Bool :=
  c = ' ' || c = Char.ofNat 9 || c = Char.ofNat 10 || c = Char.ofNat 13 ||
  c = Char.ofNat 11 || c = Char.ofNat 12

/-- Python str.strip(): drop leading and trailing whitespace. -/
def pyStrip (s : String) : String :=
  ⟨((s.data.dropWhile pyIsSpace).reverse.dropWhile pyIsSpace).reverse⟩

/-- Python str.lower(), character-wise.  Lean's Char.toLower lowers ASCII
letters only; the strings this is applied to in the claims are ASCII. -/
def pyLower (s : String) : String := ⟨s.data.map Char.toLower⟩

/-- Python str.upper(), character-wise (ASCII, as above). -/
def pyUpper (s : String) : String := ⟨s.data.map Char.toUpper⟩

/-- Python ch.isdigit().  True on the decimal digits 0-9 and on further
Unicode characters of numeric type Digit; of those we list the superscript
digits U+00B9, U+00B2, U+00B3, which Python's str.isdigit accepts although
they are not decimal digits.  The model is exact on ASCII plus these. -/
def pyIsDigit (c : Char) : Bool :=
  c.isDigit || c = '¹' || c = '²' || c = '³'

/-- Python str.isdigit(): non-empty and every character isdigit. -/
def pyIsdigitStr (s : String) : Bool :=
  !(s.data.isEmpty) && s.data.all pyIsDigit

/-- Prefix of l strictly before the first occurrence of the substring pat
(the whole list when pat does not occur), as in Python s.split(pat)[0]. -/
def takeUntilSub (pat : List Char) : List Char → List Char
  | [] => []
  | c :: rest => if pat.isPrefixOf (c :: rest) then [] else c :: takeUntilSub pat rest

/-- Python substring test (pat in s). -/
def hasSub (pat : List Char) : List Char → Bool
  | [] => pat.isPrefixOf []
  | c :: rest => pat.isPrefixOf (c :: rest) || hasSub pat rest

/-! ### ISBN normalizer (src/streamlit_app.py lines 169-172) -/

/-- Model of _normalize_isbn: empty for falsy input, else drop apostrophes
(str.replace) and keep only the characters Python classifies as digits. -/
def _normalize_isbn (s : String) : String :=
  if s = "" then ""
  else ⟨(s.data.filter (fun c => c ≠ apostropheChar)).filter pyIsDigit⟩

/-! ### Primary-author reduction (src/streamlit_app.py lines 174-186) -/

/-- Model of keep_primary_author: strip; empty stays empty; with two or
more commas (the source comment says "3+ parts") keep the first
comma-separated chunk; else cut at the first " and " or " & "; else keep. -/
def keep_primary_author (author : String) : String :=
  let s := pyStrip author
  if s = "" then ""
  else if 2 ≤ s.data.count ',' then pyStrip ⟨s.data.takeWhile (fun c => c ≠ ',')⟩
  else if hasSub (" and ".data) s.data then pyStrip ⟨takeUntilSub (" and ".data) s.data⟩
  else if hasSub (" & ".data) s.data then pyStrip ⟨takeUntilSub (" & ".data) s.data⟩
  else s

/-! ### Language display-name tables (src/streamlit_app.py lines 137-167) -/

/-- ISO_LANG dictionary, as an association list. -/
def ISO_LANG : List (String × String) :=
  [("EN","English"),("IT","Italian"),("ES","Spanish"),("DE","German"),("FR","French"),
   ("PT","Portuguese"),("NL","Dutch"),("SV","Swedish"),("NO","Norwegian"),("DA","Danish"),
   ("FI","Finnish"),("RU","Russian"),("PL","Polish"),("TR","Turkish"),("ZH","Chinese"),
   ("JA","Japanese"),("KO","Korean"),("AR","Arabic"),("HE","Hebrew"),("HI","Hindi")]

/-- ISO_LANG_2 = ISO_LANG.copy(). -/
def ISO_LANG_2 : List (String × String) := ISO_LANG

/-- ISO_LANG_3 dictionary (three-letter codes). -/
def ISO_LANG_3 : List (String × String) :=
  [("ENG","English"),("ITA","Italian"),("SPA","Spanish"),("GER","German"),("DEU","German"),
   ("FRE","French"),("FRA","French"),("POR","Portuguese"),("NLD","Dutch"),("DUT","Dutch"),
   ("SWE","Swedish"),("NOR","Norwegian"),("DAN","Danish"),("FIN","Finnish"),("RUS","Russian"),
   ("POL","Polish"),("TUR","Turkish"),("ZHO","Chinese"),("JPN","Japanese"),("KOR","Korean"),
   ("ARA","Arabic"),("HEB","Hebrew"),("HIN","Hindi")]

/-- Python dict.get(k, d) over an association list. -/
def lookupD (tbl : List (String × String)) (k d : String) : String :=
  (tbl.lookup k).getD d

/-- Model of _pretty_lang: strip and uppercase; empty stays empty; codes of
length at most 3 are looked up in ISO_LANG_2 (the two-letter table), longer
codes in ISO_LANG_3; a missing key falls through unchanged. -/
def _pretty_lang (code : String) : String :=
  let c := pyUpper (pyStrip code)
  if c = "" then ""
  else if c.length ≤ 3 then lookupD ISO_LANG_2 c c
  else lookupD ISO_LANG_3 c c

/-! ### Theorems for claims C1, C4, C8, C9 -/

/-- C1 counterexample: the claim says a string with two or more
comma-separated segments keeps only the first segment, in particular
keep_primary_author applied to "Stephen King, Peter Straub" equals
"Stephen King".  The code splits on commas only when the string contains
two or more commas (its comment says "3+ parts"), so this two-segment
string is returned unchanged. -/
theorem C1_counterexample :
    keep_primary_author "Stephen King, Peter Straub" = "Stephen King, Peter Straub" ∧
    keep_primary_author "Stephen King, Peter Straub" ≠ "Stephen King" := by decide

/-- C1 amended: if the author string contains three or more comma-separated
segments (two or more commas), keep_primary_author keeps only the first
segment; a two-segment string such as "Stephen King, Peter Straub" is
returned unchanged; strings without separators are unchanged; and the
" and " separator is cut as claimed. -/
theorem C1_amended :
    (∀ s : String, 2 ≤ (pyStrip s).data.count ',' →
      keep_primary_author s = pyStrip ⟨(pyStrip s).data.takeWhile (fun c => c ≠ ',')⟩) ∧
    keep_primary_author "Stephen King, Peter Straub" = "Stephen King, Peter Straub" ∧
    keep_primary_author "J. R. R. Tolkien" = "J. R. R. Tolkien" ∧
    keep_primary_author "Ilka Tampke and Markus Zusak" = "Ilka Tampke" ∧
    keep_primary_author "Anne Rice, Bram Stoker, Mary Shelley" = "Anne Rice" := by
  refine ⟨?_, by decide, by decide, by decide, by decide⟩
  intro s hs
  have hne : pyStrip s ≠ "" := by
    intro h
    rw [h] at hs
    simp [pyStrip] at hs
  unfold keep_primary_author
  rw [if_neg hne, if_pos hs]

/-- C1 witness: the amended comma rule applied at a concrete input. -/
theorem C1_witness : keep_primary_author "A, B, C" = "A" := by
  have h := C1_amended.1 "A, B, C" (by decide)
  exact h.trans (by decide)

/-- C4 code bug: the claim (and the source comment above ISO_LANG_3) says
known three-letter ISO codes map to display names, but _pretty_lang routes
every code of length at most 3 through the two-letter table, so "ENG"
misses and passes through unchanged even though ISO_LANG_3 maps it to
"English"; two-letter codes do map as claimed. -/
theorem C4_theorem :
    _pretty_lang "ENG" = "ENG" ∧
    ISO_LANG_3.lookup "ENG" = some "English" ∧
    _pretty_lang "EN" = "English" ∧
    _pretty_lang " en " = "English" ∧
    _pretty_lang "" = "" ∧
    _pretty_lang "XX" = "XX" := by decide

/-- C8 counterexample: Python's str.isdigit also accepts the superscript
digit U+00B2, so _normalize_isbn can return a non-empty string containing
a character that is not a decimal digit. -/
theorem C8_counterexample :
    _normalize_isbn "²" = "²" ∧ ("²".data.all Char.isDigit) = false := by decide

/-- C8 amended: _normalize_isbn removes apostrophes and every character
rejected by Python's str.isdigit, returns the empty string for empty
input, and its output contains only characters accepted by str.isdigit;
since that set also contains non-decimal characters such as superscript
two, the only-decimal-digits guarantee holds for ASCII inputs. -/
theorem C8_amended :
    _normalize_isbn "978-0-13-468599'9" = "9780134685999" ∧
    _normalize_isbn "" = "" ∧
    (∀ s : String, (_normalize_isbn s).data.all pyIsDigit = true) ∧
    (∀ s : String, (∀ c ∈ s.data, c.toNat < 128) →
      (_normalize_isbn s).data.all Char.isDigit = true) := by
  refine ⟨by decide, by decide, ?_, ?_⟩
  · intro s
    unfold _normalize_isbn
    by_cases hx : s = ""
    · simp [hx]
    · rw [if_neg hx, List.all_eq_true]
      intro c hc
      exact (List.mem_filter.mp hc).2
  · intro s hascii
    unfold _normalize_isbn
    by_cases hx : s = ""
    · simp [hx]
    · rw [if_neg hx, List.all_eq_true]
      intro c hc
      have hmem : c ∈ s.data := (List.mem_filter.mp (List.mem_filter.mp hc).1).1
      have hpy : pyIsDigit c = true := (List.mem_filter.mp hc).2
      have hlt := hascii c hmem
      unfold pyIsDigit at hpy
      simp only [Bool.or_eq_true, decide_eq_true_eq] at hpy
      rcases hpy with ((h | h) | h) | h
      · exact h
      · subst h; exact absurd hlt (by decide)
      · subst h; exact absurd hlt (by decide)
      · subst h; exact absurd hlt (by decide)

/-- C8 witness: the ASCII-input decimal-digit guarantee at a concrete input. -/
theorem C8_witness :
    (_normalize_isbn "978-01'34685999").data.all Char.isDigit = true ∧
    (_normalize_isbn "x978'0 12").data.all pyIsDigit = true :=
  ⟨C8_amended.2.2.2 _ (by decide), C8_amended.2.2.1 _⟩

/-- C9: _normalize_isbn is idempotent.  The output contains no apostrophe
and only characters kept by the digit filter, so a second pass changes
nothing. -/
theorem C9_theorem (x : String) :
    _normalize_isbn (_normalize_isbn x) = _normalize_isbn x := by
  have key : ∀ l : List Char,
      (((l.filter (fun c => c ≠ apostropheChar)).filter pyIsDigit).filter
          (fun c => c ≠ apostropheChar)).filter pyIsDigit
        = (l.filter (fun c => c ≠ apostropheChar)).filter pyIsDigit := by
    intro l
    have h1 : ((l.filter (fun c => c ≠ apostropheChar)).filter pyIsDigit).filter
        (fun c => c ≠ apostropheChar)
        = (l.filter (fun c => c ≠ apostropheChar)).filter pyIsDigit := by
      apply List.filter_eq_self.mpr
      intro a ha
      exact (List.mem_filter.mp (List.mem_filter.mp ha).1).2
    rw [h1]
    apply List.filter_eq_self.mpr
    intro a ha
    exact (List.mem_filter.mp ha).2
  unfold _normalize_isbn
  by_cases hx : x = ""
  · simp [hx]
  · rw [if_neg hx]
    by_cases hy :
        (⟨(x.data.filter (fun c => c ≠ apostropheChar)).filter pyIsDigit⟩ : String) = ""
    · rw [if_pos hy, hy]
    · rw [if_neg hy]
      exact congrArg String.mk (key x.data)

/-! ### Metadata merger (src/streamlit_app.py lines 340-387)

A provider response dict is modelled as a structure with the nine canonical
keys; a missing key is the empty string (dict.get with default "").  The two
network fetches and the Open Library ratings sub-call are external I/O and
are passed in as arguments; ol_avg is the Open Library average already
formatted to a string (the Python float rounding is abstracted). -/

structure Meta where
  isbn : String := ""
  title : String := ""
  author : String := ""
  genre : String := ""
  language : String := ""
  thumbnail : String := ""
  description : String := ""
  rating : String := ""
  publishedDate : String := ""
  deriving DecidableEq

/-- Model of get_goodreads_rating_placeholder. -/
def get_goodreads_rating_placeholder (_isbn : String) : String := "GR:unavailable"

/-- Python sep.join(parts). -/
def joinSep (sep : String) : List String → String
  | [] => ""
  | [x] => x
  | x :: y :: rest => x ++ sep ++ joinSep sep (y :: rest)

/-- Model of get_book_metadata.  Note: in the source, meta is a .copy() of a
provider dict, so the later test (meta is google_meta) is always False and
the backfill source is google_meta in both cases; the model reproduces
that. -/
def get_book_metadata (google_meta openlibrary_meta : Meta) (ol_avg : Option String) : Meta :=
  let base := if google_meta.title ≠ "" then google_meta else openlibrary_meta
  let fill := fun (cur other : String) => if cur = "" then other else cur
  let m1 : Meta := { base with
    title := fill base.title google_meta.title
    author := fill base.author google_meta.author
    genre := fill base.genre google_meta.genre
    language := fill base.language google_meta.language
    thumbnail := fill base.thumbnail google_meta.thumbnail
    description := fill base.description google_meta.description
    publishedDate := fill base.publishedDate google_meta.publishedDate }
  let m2 : Meta := { m1 with language := _pretty_lang m1.language }
  let m3 : Meta :=
    if m2.thumbnail = "" ∧ m2.isbn ≠ "" then
      { m2 with thumbnail := "https://covers.openlibrary.org/b/isbn/" ++ m2.isbn ++ "-L.jpg" }
    else m2
  let ratings_parts :=
    (if google_meta.rating ≠ "" then ["GB:" ++ google_meta.rating] else []) ++
    (match ol_avg with
     | some v => ["OL:" ++ v]
     | none => []) ++
    [get_goodreads_rating_placeholder m2.isbn]
  let m4 : Meta := { m3 with rating := joinSep " | " ratings_parts }
  let m5 : Meta :=
    if m4.author = "Jø Lier Horst" then { m4 with author := "Jørn Lier Horst" } else m4
  { m5 with author := keep_primary_author m5.author }

/-- C6: the merger prefers the first provider's title when non-empty, and
yields the empty title when both providers lack one. -/
theorem C6_theorem (A B : Meta) (ol_avg : Option String) :
    (A.title ≠ "" → (get_book_metadata A B ol_avg).title = A.title) ∧
    (A.title = "" → B.title = "" → (get_book_metadata A B ol_avg).title = "") := by
  constructor
  · intro h
    simp [get_book_metadata, h, apply_ite Meta.title]
  · intro h1 h2
    simp [get_book_metadata, h1, h2, apply_ite Meta.title]

/-- C6 witness: the title preference at concrete provider records. -/
theorem C6_witness :
    (get_book_metadata { title := "Dune", author := "Frank Herbert" }
        { title := "Other Title" } none).title = "Dune" ∧
    (get_book_metadata { isbn := "1" } {} none).title = "" :=
  ⟨(C6_theorem _ _ none).1 (by decide), (C6_theorem _ _ none).2 (by decide) (by decide)⟩

/-- Helper: the last element of the joined list is a suffix of the join. -/
theorem joinSep_concat_suffix (sep : String) :
    ∀ (l : List String) (x : String), x.data <:+ (joinSep sep (l ++ [x])).data
  | [], x => by simp [joinSep]
  | a :: l, x => by
    obtain ⟨y, ys, hy⟩ : ∃ y ys, l ++ [x] = y :: ys := by
      cases l with
      | nil => exact ⟨x, [], rfl⟩
      | cons b t => exact ⟨b, t ++ [x], rfl⟩
    have ih := joinSep_concat_suffix sep l x
    have hstep : joinSep sep ((a :: l) ++ [x]) = a ++ sep ++ joinSep sep (l ++ [x]) := by
      rw [List.cons_append, hy]
      rfl
    rw [hstep, String.data_append]
    exact ih.trans (List.suffix_append _ _)

/-- C10: the merged record always carries all nine canonical keys (they are
intrinsic to the Meta structure) and its Rating is never empty: the fixed
GR:unavailable placeholder is always the last joined segment. -/
theorem C10_theorem (A B : Meta) (ol_avg : Option String) :
    "GR:unavailable".data <:+ (get_book_metadata A B ol_avg).rating.data ∧
    (get_book_metadata A B ol_avg).rating ≠ "" := by
  have key : ∀ (s : String) (mid : List String),
      s = joinSep " | " (mid ++ ["GR:unavailable"]) →
      ("GR:unavailable".data <:+ s.data ∧ s ≠ "") := by
    intro s mid h
    have hsuf := joinSep_concat_suffix " | " mid "GR:unavailable"
    rw [← h] at hsuf
    refine ⟨hsuf, ?_⟩
    intro hempty
    rw [hempty] at hsuf
    have h0 : ("GR:unavailable".data : List Char) = [] := List.suffix_nil.mp hsuf
    simp at h0
  cases ol_avg with
  | none =>
    refine key _ ((if A.rating ≠ "" then ["GB:" ++ A.rating] else []) ++ []) ?_
    unfold get_book_metadata get_goodreads_rating_placeholder
    simp only [apply_ite Meta.rating, ite_self]
  | some v =>
    refine key _ ((if A.rating ≠ "" then ["GB:" ++ A.rating] else []) ++ ["OL:" ++ v]) ?_
    unfold get_book_metadata get_goodreads_rating_placeholder
    simp only [apply_ite Meta.rating, ite_self]

/-! ### Deduplicating writer (src/streamlit_app.py lines 469-518)

The worksheet is abstracted as a list of BookRecord rows under the canonical
header (the header-repair and extra-column bookkeeping of the source touch
presentation only).  A row dict is a BookRecord; a missing cell is "". -/

structure BookRecord where
  isbn : String := ""
  title : String := ""
  author : String := ""
  genre : String := ""
  language : String := ""
  thumbnail : String := ""
  description : String := ""
  rating : String := ""
  publishedDate : String := ""
  dateRead : String := ""
  deriving DecidableEq

/-- Outcome of the deduplicating writer (the source signals these via
st.info / a successful append). -/
inductive Outcome where
  | appended
  | skippedDuplicateIsbn
  | skippedDuplicateTitleAuthor
  deriving DecidableEq

/-- Normalized ISBNs of existing rows with non-empty normalized ISBN. -/
def existing_isbns (rows : List BookRecord) : List String :=
  rows.filterMap fun r =>
    if _normalize_isbn r.isbn = "" then none else some (_normalize_isbn r.isbn)

/-- Lowercased-trimmed (title, author) pairs of existing rows where at least
one of the two is non-empty. -/
def existing_ta (rows : List BookRecord) : List (String × String) :=
  rows.filterMap fun r =>
    if pyLower (pyStrip r.title) = "" ∧ pyLower (pyStrip r.author) = "" then none
    else some (pyLower (pyStrip r.title), pyLower (pyStrip r.author))

/-- Model of append_record: skip on duplicate normalized ISBN, else on
duplicate (title, author) pair, else append one row, quoting a purely
numeric ISBN for text storage (the two append branches spell out the
conditional ISBN mutation of the source). -/
def append_record (rows : List BookRecord) (record : BookRecord) : Outcome × List BookRecord :=
  if _normalize_isbn record.isbn ≠ "" ∧ _normalize_isbn record.isbn ∈ existing_isbns rows then
    (Outcome.skippedDuplicateIsbn, rows)
  else if (pyLower (pyStrip record.title), pyLower (pyStrip record.author)) ∈ existing_ta rows then
    (Outcome.skippedDuplicateTitleAuthor, rows)
  else if record.isbn ≠ "" ∧ pyIsdigitStr record.isbn = true then
    (Outcome.appended, rows ++ [{ record with isbn := "'" ++ pyStrip record.isbn }])
  else
    (Outcome.appended, rows ++ [record])

/-- C5: an incoming record whose non-empty normalized ISBN is already among
the table's normalized ISBNs is skipped as a duplicate and the table is
unchanged. -/
theorem C5_theorem (rows : List BookRecord) (record : BookRecord)
    (h1 : _normalize_isbn record.isbn ≠ "")
    (h2 : _normalize_isbn record.isbn ∈ existing_isbns rows) :
    append_record rows record = (Outcome.skippedDuplicateIsbn, rows) ∧
    (append_record rows record).2.length = rows.length := by
  unfold append_record
  rw [if_pos ⟨h1, h2⟩]
  exact ⟨rfl, rfl⟩

/-- C5 witness: the stored ISBN 9780134685999 blocks an incoming hyphenated
and quoted variant of the same ISBN. -/
theorem C5_witness :
    append_record [{ isbn := "9780134685999", title := "Effective Java", author := "Joshua Bloch" }]
        { isbn := "978-0-13-468599'9", title := "Effective Java 3rd", author := "J. Bloch" } =
      (Outcome.skippedDuplicateIsbn,
        [{ isbn := "9780134685999", title := "Effective Java", author := "Joshua Bloch" }]) :=
  (C5_theorem _ _ (by decide) (by decide)).1

/-- C7: appending a genuinely new record grows the table by exactly one row,
and a purely numeric ISBN is stored with the leading-quote text prefix. -/
theorem C7_theorem (rows : List BookRecord) (record : BookRecord)
    (h1 : ¬(_normalize_isbn record.isbn ≠ "" ∧ _normalize_isbn record.isbn ∈ existing_isbns rows))
    (h2 : (pyLower (pyStrip record.title), pyLower (pyStrip record.author)) ∉ existing_ta rows) :
    (append_record rows record).1 = Outcome.appended ∧
    (append_record rows record).2.length = rows.length + 1 ∧
    (record.isbn ≠ "" → record.isbn.data.all Char.isDigit = true →
      ((append_record rows record).2.getLast?.map BookRecord.isbn) =
        some ("'" ++ pyStrip record.isbn)) := by
  unfold append_record
  rw [if_neg h1, if_neg h2]
  by_cases h3 : record.isbn ≠ "" ∧ pyIsdigitStr record.isbn = true
  · rw [if_pos h3]
    refine ⟨rfl, by simp, ?_⟩
    intro _ _
    rw [List.getLast?_concat]
    rfl
  · rw [if_neg h3]
    refine ⟨rfl, by simp, ?_⟩
    intro hne hdig
    exfalso
    apply h3
    refine ⟨hne, ?_⟩
    unfold pyIsdigitStr
    have hdata : record.isbn.data ≠ [] := by
      intro hnil
      exact hne (String.ext hnil)
    have hne2 : record.isbn.data.isEmpty = false := by
      cases hq : record.isbn.data with
      | nil => exact absurd hq hdata
      | cons c t => rfl
    rw [hne2]
    simp only [Bool.not_false, Bool.true_and]
    rw [List.all_eq_true] at hdig ⊢
    intro c hc
    unfold pyIsDigit
    rw [hdig c hc]
    rfl

/-- C7 witness: a fresh numeric-ISBN record appended to an empty table. -/
theorem C7_witness :
    ((append_record [] { isbn := "9780143127741", title := "Dune", author := "Frank Herbert" }).2.getLast?.map
      BookRecord.isbn) = some "'9780143127741" := by
  have h := C7_theorem [] { isbn := "9780143127741", title := "Dune", author := "Frank Herbert" }
    (by decide) (by decide)
  exact (h.2.2 (by decide) (by decide)).trans (by decide)

/-! ### Append paths feeding the writer

The by-author recommendation Add-to-Wishlist handler (src/streamlit_app.py
lines 816-846) and the manual Add Book form (lines 577-613). -/

/-- One recommendation item as produced by get_recommendations_by_author. -/
structure RecItem where
  source : String := ""
  title : String := ""
  authors : String := ""
  isbn : String := ""
  published : String := ""
  description : String := ""
  thumbnail : String := ""
  deriving DecidableEq

/-- The rec_meta dict built by the by-author Add-to-Wishlist handler: the
title is the stripped item title, the ISBN the normalized item ISBN, and
the Author cell receives the item's joined authors string verbatim. -/
def rec_wishlist_record (item : RecItem) : BookRecord :=
  { isbn := _normalize_isbn item.isbn
    title := pyStrip item.title
    author := item.authors
    thumbnail := item.thumbnail
    description := item.description
    publishedDate := item.published }

/-- The owned-item filter applied before a recommendation is rendered:
skip when the lowercased title is owned, or the normalized ISBN is
non-empty and owned. -/
def rec_item_skipped (owned_titles : List String) (owned_isbns : List String)
    (item : RecItem) : Bool :=
  decide (pyLower (pyStrip item.title) ∈ owned_titles) ||
  (decide (_normalize_isbn item.isbn ≠ "") && decide (_normalize_isbn item.isbn ∈ owned_isbns))

/-- The by-author Add-to-Wishlist click: a skipped item is never rendered
(none); otherwise the handler calls append_record on the Wishlist rows. -/
def add_rec_to_wishlist (owned_titles owned_isbns : List String)
    (wishlist_rows : List BookRecord) (item : RecItem) : Option (Outcome × List BookRecord) :=
  if rec_item_skipped owned_titles owned_isbns item then none
  else some (append_record wishlist_rows (rec_wishlist_record item))

/-- The rec dict built by the manual Add Book form: title/author/isbn/date
read from the inputs, remaining fields from the last scan's metadata (an
absent or empty scan value leaves the field empty). -/
def form_build_record (title author isbn date_read : String) (scan_meta : Meta) : BookRecord :=
  { isbn := isbn
    title := title
    author := author
    genre := scan_meta.genre
    language := scan_meta.language
    thumbnail := scan_meta.thumbnail
    description := scan_meta.description
    rating := scan_meta.rating
    publishedDate := scan_meta.publishedDate
    dateRead := date_read }

/-- The Add Book form submit handler: requires a non-empty title and author,
dedupes the incoming record across Library and Wishlist together (none on a
duplicate, mirroring the st.warning early exits), then appends to the
chosen tab. -/
def form_add_book (lib_rows wish_rows : List BookRecord) (title author isbn date_read : String)
    (scan_meta : Meta) (choice_is_library : Bool) : Option (Outcome × List BookRecord) :=
  if title ≠ "" ∧ author ≠ "" then
    if _normalize_isbn isbn ≠ "" ∧
        _normalize_isbn isbn ∈ (lib_rows ++ wish_rows).map (fun r => _normalize_isbn r.isbn) then
      none
    else if (pyLower (pyStrip title), pyLower (pyStrip author)) ∈
        (lib_rows ++ wish_rows).map
          (fun r => (pyLower (pyStrip r.title), pyLower (pyStrip r.author))) then
      none
    else
      some (append_record (if choice_is_library then lib_rows else wish_rows)
        (form_build_record title author isbn date_read scan_meta))
  else none

/-- C3 counterexample: a recommendation item with no title and no authors
but a fresh ISBN passes the owned filter and every writer guard, so a row
with both title and author empty is persisted to the Wishlist. -/
theorem C3_counterexample :
    add_rec_to_wishlist [] [] [] { isbn := "9999999999999" } =
      some (Outcome.appended, [{ isbn := "'9999999999999" }]) ∧
    (rec_wishlist_record { isbn := "9999999999999" }).title = "" ∧
    (rec_wishlist_record { isbn := "9999999999999" }).author = "" := by decide

/-- C3 amended: the writer itself enforces no title/author check (the
counterexample appends an empty/empty row through the recommendation path),
but the manual form path only reaches the writer with a non-empty title and
a non-empty author, and an appended row carries the record's title and
author unchanged. -/
theorem C3_amended :
    (∀ (lib wish : List BookRecord) (title author isbn dr : String) (sm : Meta) (ch : Bool)
        (res : Outcome × List BookRecord),
        form_add_book lib wish title author isbn dr sm ch = some res →
        title ≠ "" ∧ author ≠ "") ∧
    (∀ (rows : List BookRecord) (record : BookRecord),
        (append_record rows record).1 = Outcome.appended →
        ((append_record rows record).2.getLast?.map (fun r => (r.title, r.author))) =
          some (record.title, record.author)) := by
  constructor
  · intro lib wish title author isbn dr sm ch res h
    by_cases hc : title ≠ "" ∧ author ≠ ""
    · exact hc
    · rw [form_add_book, if_neg hc] at h
      exact absurd h (by simp)
  · intro rows record h
    unfold append_record at h ⊢
    split_ifs at h ⊢ with h1 h2 h3 <;>
      (rw [List.getLast?_concat]; rfl)

/-- C3 witness: a successful manual-form submission with a non-empty title
and author, and the appended row carrying them. -/
theorem C3_witness :
    ("Dune" ≠ "" ∧ "Frank Herbert" ≠ "") ∧
    ((append_record [] ({ title := "Dune", author := "Frank Herbert" } : BookRecord)).2.getLast?.map
      (fun r => (r.title, r.author))) = some ("Dune", "Frank Herbert") :=
  ⟨C3_amended.1 [] [] "Dune" "Frank Herbert" "" "" {} true
      (Outcome.appended, [{ title := "Dune", author := "Frank Herbert" }]) (by decide),
   C3_amended.2 [] { title := "Dune", author := "Frank Herbert" } (by decide)⟩

/-! ### difflib.SequenceMatcher (no junk, autojunk irrelevant at these sizes)

find_longest_match returns the longest matching block, ties broken by the
earliest start in a, then in b; get_matching_blocks recurses left and right
of it; ratio = 2*M/T.  The model computes with exact naturals: the Python
float ratio is compared against thresholds via cross-multiplication, which
agrees with the float comparison away from representation-error ties (the
values below are 1, 3/4 and the like, far from 0.85 and 0.95). -/

/-- Length of the common prefix of two lists. -/
def matchLen : List Char → List Char → Nat
  | x :: xs, y :: ys => if x = y then matchLen xs ys + 1 else 0
  | _, _ => 0

/-- All start pairs (i, j), i ascending then j ascending, mirroring the
i-outer j-inner scan of find_longest_match. -/
def candidatePairs (la lb : Nat) : List (Nat × Nat) :=
  (List.range la).flatMap fun i => (List.range lb).map fun j => (i, j)

/-- The longest matching block (i, j, size) between a and b: maximal size,
then minimal i, then minimal j, found by scanning the candidate pairs in
order and keeping the first strict improvement. -/
def findBest (a b : List Char) : Nat × Nat × Nat :=
  (candidatePairs a.length b.length).foldl
    (fun best p =>
      if matchLen (a.drop p.1) (b.drop p.2) > best.2.2 then
        (p.1, p.2, matchLen (a.drop p.1) (b.drop p.2))
      else best)
    (0, 0, 0)

/-- Total size of all matching blocks (fuelled recursion over the two
slices left and right of the longest match). -/
def matchSumF : Nat → List Char → List Char → Nat
  | 0, _, _ => 0
  | fuel + 1, a, b =>
    let p := findBest a b
    if p.2.2 = 0 then 0
    else
      matchSumF fuel (a.take p.1) (b.take p.2.1) + p.2.2 +
        matchSumF fuel (a.drop (p.1 + p.2.2)) (b.drop (p.2.1 + p.2.2))

/-- Total matched characters M of SequenceMatcher(None, a, b). -/
def matchSum (a b : List Char) : Nat := matchSumF (a.length + b.length + 1) a b

/-- Whether SequenceMatcher ratio 2*M/T is strictly below num/den
(ratio of two empty sequences is 1.0 in difflib). -/
def simLt (a b : List Char) (num den : Nat) : Bool :=
  if a.length + b.length = 0 then decide (den < num)
  else decide (2 * matchSum a b * den < num * (a.length + b.length))

/-! ### Comparison normalization (src/streamlit_app.py lines 962-973)

The source regexes are raw strings with doubled backslashes:
the title branch splits on the character class containing colon, opening
parenthesis, backslash and opening bracket, then substitutes the pattern
backslash-b (a|an|the) backslash-b backslash s+ (with re.I) by nothing -
because of the doubled backslashes the word-boundary anchors are literal
backslash-b text, so the substitution only fires on text containing
backslashes; likewise the final whitespace-collapse pattern backslash-s+
matches a literal backslash followed by letters s.  The model reproduces
these patterns literally. -/

/-- Model of _strip_diacritics: NFKD-normalize then encode ascii/ignore.
The NFKD decomposition step is not modelled (it is the identity on ASCII);
the ascii-ignore drop of characters above U+007F is. -/
def _strip_diacritics (s : String) : String :=
  ⟨s.data.filter (fun c => c.toNat < 128)⟩

/-- Consume the given lowercase word case-insensitively. -/
def matchWordCI : List Char → List Char → Option (List Char)
  | [], rest => some rest
  | _ :: _, [] => none
  | w :: ws, d :: ds => if d.toLower = w then matchWordCI ws ds else none

/-- After the article word the pattern expects literal backslash, letter b,
literal backslash, then one or more letters s (case-insensitive). -/
def articleTail (l : List Char) : Option (List Char) :=
  match l with
  | c1 :: b2 :: c3 :: rest =>
    if c1 = backslashChar ∧ b2.toLower = 'b' ∧ c3 = backslashChar then
      if (rest.takeWhile (fun c => c.toLower = 's')).length = 0 then none
      else some (rest.drop (rest.takeWhile (fun c => c.toLower = 's')).length)
    else none
  | _ => none

/-- One attempted match of the (inoperative) article pattern at the head of
l: literal backslash, letter b, then the alternation a|an|the tried in
order with backtracking, then articleTail. -/
def articleMatch (l : List Char) : Option (List Char) :=
  match l with
  | c1 :: b2 :: rest =>
    if c1 = backslashChar ∧ b2.toLower = 'b' then
      ((matchWordCI ['a'] rest).bind articleTail).orElse fun _ =>
        ((matchWordCI ['a', 'n'] rest).bind articleTail).orElse fun _ =>
          (matchWordCI ['t', 'h', 'e'] rest).bind articleTail
    else none
  | _ => none

/-- One attempted match of the (inoperative) whitespace pattern at the head
of l: literal backslash then one or more letters s (case-sensitive). -/
def wsMatch (l : List Char) : Option (List Char) :=
  match l with
  | c1 :: rest =>
    if c1 = backslashChar then
      if (rest.takeWhile (fun c => c = 's')).length = 0 then none
      else some (rest.drop (rest.takeWhile (fun c => c = 's')).length)
    else none
  | [] => none

/-- re.sub scanning: at each position try a match; on success emit the
replacement and continue after the match, else emit the character and
advance.  Every pattern here consumes at least one character, so the
length of the list is sufficient fuel. -/
def subAllF (tryMatch : List Char → Option (List Char)) (repl : List Char) :
    Nat → List Char → List Char
  | 0, l => l
  | _ + 1, [] => []
  | fuel + 1, c :: rest =>
    match tryMatch (c :: rest) with
    | some r => repl ++ subAllF tryMatch repl fuel r
    | none => c :: subAllF tryMatch repl fuel rest

/-- re.sub of a pattern that consumes at least one character. -/
def subAll (tryMatch : List Char → Option (List Char)) (repl : List Char)
    (l : List Char) : List Char :=
  subAllF tryMatch repl l.length l

/-- A character kept verbatim by the punctuation collapse [^a-z0-9 ]+. -/
def punctOk (c : Char) : Bool :=
  (97 ≤ c.toNat && c.toNat ≤ 122) || (48 ≤ c.toNat && c.toNat ≤ 57) || c = ' '

/-- Replace each maximal run of non-[a-z0-9 ] characters by one space. -/
def punctSubAux : Bool → List Char → List Char
  | _, [] => []
  | inRun, c :: rest =>
    if punctOk c then c :: punctSubAux false rest
    else if inRun then punctSubAux true rest
    else ' ' :: punctSubAux true rest

/-- re.sub of [^a-z0-9 ]+ by a single space. -/
def punctSub (l : List Char) : List Char := punctSubAux false l

/-- Prefix before the first colon, opening parenthesis, backslash or
opening bracket (the source's re.split character class). -/
def splitTitleHead (l : List Char) : List Char :=
  l.takeWhile (fun c => ¬(c = ':' ∨ c = '(' ∨ c = backslashChar ∨ c = '['))

/-- Model of _norm_text_for_compare: strip diacritics; for titles cut the
subtitle and apply the (inoperative) article substitution, for authors
reduce to the primary author; lowercase and collapse punctuation runs to
spaces; apply the (inoperative) whitespace substitution; strip. -/
def _norm_text_for_compare (s : String) (is_title : Bool) : String :=
  let l := (_strip_diacritics s).data
  let l := if is_title then subAll articleMatch [] (splitTitleHead l)
           else (keep_primary_author ⟨l⟩).data
  let l := punctSub (l.map Char.toLower)
  let l := subAll wsMatch [' '] l
  pyStrip ⟨l⟩

/-- The deep-clean title comparison (src/streamlit_app.py lines 1004-1007):
flag a mismatch exactly when the ratio of the normalized strings is below
0.95. -/
def titleMismatch (sheet canonical : String) : Bool :=
  simLt (_norm_text_for_compare sheet true).data
    (_norm_text_for_compare canonical true).data 19 20

/-- The deep-clean author comparison (lines 1009-1012), same 0.95 bar. -/
def authorMismatch (sheet canonical : String) : Bool :=
  simLt (_norm_text_for_compare sheet false).data
    (_norm_text_for_compare canonical false).data 19 20

/-! ### Self-similarity of the matcher: equal sequences have ratio 1 -/

theorem matchLen_self : ∀ l : List Char, matchLen l l = l.length
  | [] => rfl
  | c :: t => by simp [matchLen, matchLen_self t]

theorem matchLen_le_left : ∀ a b : List Char, matchLen a b ≤ a.length
  | [], _ => by simp [matchLen]
  | _ :: _, [] => by simp [matchLen]
  | x :: xs, y :: ys => by
    by_cases h : x = y
    · simp only [matchLen, if_pos h, List.length_cons]
      exact Nat.succ_le_succ (matchLen_le_left xs ys)
    · simp [matchLen, h]

theorem foldl_no_improve {α : Type} (K : α → Nat) (G : α → Nat × Nat × Nat) :
    ∀ (ps : List α) (acc : Nat × Nat × Nat), (∀ p ∈ ps, K p ≤ acc.2.2) →
      ps.foldl (fun best p => if K p > best.2.2 then G p else best) acc = acc
  | [], _, _ => rfl
  | p :: ps, acc, h => by
    have h1 : ¬(K p > acc.2.2) := Nat.not_lt.mpr (h p (List.mem_cons_self p ps))
    simp only [List.foldl_cons, if_neg h1]
    exact foldl_no_improve K G ps acc fun q hq => h q (List.mem_cons_of_mem p hq)

theorem findBest_self (a : List Char) : findBest a a = (0, 0, a.length) := by
  unfold findBest candidatePairs
  cases ha : a.length with
  | zero => rfl
  | succ n =>
    have hbound : ∀ (q : Nat × Nat), matchLen (a.drop q.1) (a.drop q.2) ≤ n + 1 := by
      intro q
      calc matchLen (a.drop q.1) (a.drop q.2) ≤ (a.drop q.1).length := matchLen_le_left _ _
        _ ≤ a.length := by simp
        _ = n + 1 := ha
    rw [List.range_succ_eq_map]
    simp only [List.flatMap_cons, List.map_cons, List.foldl_append, List.foldl_cons]
    have h0 : matchLen (a.drop 0) (a.drop 0) = n + 1 := by
      rw [List.drop_zero, matchLen_self]
      exact ha
    rw [h0, if_pos (Nat.succ_pos n)]
    have hX : (((List.range n).map Nat.succ).map fun j => ((0 : Nat), j)).foldl
        (fun best p =>
          if matchLen (a.drop p.1) (a.drop p.2) > best.2.2 then
            (p.1, p.2, matchLen (a.drop p.1) (a.drop p.2))
          else best)
        (0, 0, n + 1) = (0, 0, n + 1) :=
      foldl_no_improve (fun p => matchLen (a.drop p.1) (a.drop p.2))
        (fun p => (p.1, p.2, matchLen (a.drop p.1) (a.drop p.2))) _ _
        (fun p _ => hbound p)
    rw [hX]
    have hY : (((List.range n).map Nat.succ).flatMap fun i =>
          (i, 0) :: (((List.range n).map Nat.succ).map fun j => (i, j))).foldl
        (fun best p =>
          if matchLen (a.drop p.1) (a.drop p.2) > best.2.2 then
            (p.1, p.2, matchLen (a.drop p.1) (a.drop p.2))
          else best)
        (0, 0, n + 1) = (0, 0, n + 1) :=
      foldl_no_improve (fun p => matchLen (a.drop p.1) (a.drop p.2))
        (fun p => (p.1, p.2, matchLen (a.drop p.1) (a.drop p.2))) _ _
        (fun p _ => hbound p)
    rw [hY]

theorem matchSumF_nil : ∀ fuel, matchSumF fuel [] [] = 0
  | 0 => rfl
  | _ + 1 => rfl

theorem matchSumF_succ (fuel : Nat) (a b : List Char) :
    matchSumF (fuel + 1) a b =
      (let p := findBest a b
       if p.2.2 = 0 then 0
       else
         matchSumF fuel (a.take p.1) (b.take p.2.1) + p.2.2 +
           matchSumF fuel (a.drop (p.1 + p.2.2)) (b.drop (p.2.1 + p.2.2))) := rfl

theorem matchSum_self (a : List Char) : matchSum a a = a.length := by
  unfold matchSum
  cases ha : a.length with
  | zero =>
    rw [List.length_eq_zero] at ha
    subst ha
    rfl
  | succ n =>
    have hfb := findBest_self a
    rw [ha] at hfb
    have hdrop : a.drop (0 + (n + 1)) = [] := by
      rw [Nat.zero_add, ← ha]
      exact List.drop_length a
    simp only [matchSumF_succ, hfb]
    rw [if_neg (Nat.succ_ne_zero n)]
    rw [hdrop]
    rw [List.take_zero]
    rw [matchSumF_nil]
    omega

theorem simLt_self_false (u : List Char) (num den : Nat) (h : num ≤ den) :
    simLt u u num den = false := by
  unfold simLt
  by_cases h0 : u.length + u.length = 0
  · rw [if_pos h0]
    exact decide_eq_false (Nat.not_lt.mpr h)
  · rw [if_neg h0]
    apply decide_eq_false
    rw [matchSum_self]
    intro hlt
    have hle : num * (u.length + u.length) ≤ 2 * u.length * den := by
      calc num * (u.length + u.length) = 2 * u.length * num := by ring
        _ ≤ 2 * u.length * den := Nat.mul_le_mul_left _ h
    exact absurd hlt (Nat.not_lt.mpr hle)

/-! ### Theorems for claim C2 -/

set_option maxRecDepth 8000 in
/-- C2 counterexample: the titles "The Hobbit" and "Hobbit" differ only by
a leading "The ", yet after the comparison normalization (whose article
stripping is inoperative because of the doubled backslashes in the regex)
their SequenceMatcher ratio is 3/4, which is below 0.85 — so by the claim's
own classification rule the pair would be diff, contradicting the claim
that such pairs are never diff; the code's own (binary, 0.95) comparison
also flags the pair as a mismatch. -/
theorem C2_counterexample :
    _norm_text_for_compare "The Hobbit" true = "the hobbit" ∧
    _norm_text_for_compare "Hobbit" true = "hobbit" ∧
    simLt "the hobbit".data "hobbit".data 17 20 = true ∧
    titleMismatch "The Hobbit" "Hobbit" = true := by
  exact ⟨by decide, by decide, by decide, by decide⟩

set_option maxRecDepth 8000 in
/-- C2 amended: the repair loop performs a binary classification at 0.95,
not the claimed exact/close/diff three-way split at 0.85: a title or author
pair is flagged as a mismatch exactly when the ratio of the normalized
strings is below 0.95.  Pairs whose normalizations are equal — in
particular strings differing only by a subtitle after a colon — have ratio
1 and are never flagged, but strings differing only by a leading "The "
can be flagged, because the article-stripping regex is inoperative. -/
theorem C2_amended :
    (∀ s c : String, _norm_text_for_compare s true = _norm_text_for_compare c true →
      titleMismatch s c = false) ∧
    (∀ s c : String, _norm_text_for_compare s false = _norm_text_for_compare c false →
      authorMismatch s c = false) ∧
    _norm_text_for_compare "Dune: The Saga" true = _norm_text_for_compare "Dune" true ∧
    titleMismatch "Dune: The Saga" "Dune" = false ∧
    titleMismatch "The Hobbit" "Hobbit" = true := by
  refine ⟨?_, ?_, by decide, by decide, by decide⟩
  · intro s c h
    unfold titleMismatch
    rw [h]
    exact simLt_self_false _ _ _ (by omega)
  · intro s c h
    unfold authorMismatch
    rw [h]
    exact simLt_self_false _ _ _ (by omega)

set_option maxRecDepth 8000 in
/-- C2 witness: a subtitle in parentheses normalizes away, so the pair is
not flagged. -/
theorem C2_witness : titleMismatch "Dune (movie tie-in)" "Dune" = false :=
  C2_amended.1 _ _ (by decide)

end Misiddons
